import Mathlib

/-!
# OmniQ Node client — verification of the operations layer and consumer runloop

Shallow embedding of the omniq-node client (src/ops.ts, src/consumer.ts,
src/exec.ts, src/helper.ts) in Lean 4.  JavaScript strings are modelled as
Lean `String`, JavaScript numbers occurring in these code paths as `Int`
(all values marshalled here are integral milliseconds/counts; `Math.trunc`
on an integral value is the identity), store replies as the inductive
`RVal`, and thrown JavaScript values as `JsThrown`.  External builtins the
code calls (`JSON.stringify`, `Date.now`, ULID generation, the Redis
driver) are passed in as explicit parameters, so every definition below is
a direct transcription of repository source.
-/

namespace Omniq

/-- JavaScript `String.prototype.startsWith` on character lists. -/
def listStartsWith : List Char → List Char → Bool
  | _, [] => true
  | [], _ :: _ => false
  | c :: l, d :: sub => c == d && listStartsWith l sub

/-- Substring occurrence on character lists (helper for `jsIncludes`). -/
def listHasSub : List Char → List Char → Bool
  | [], sub => sub.isEmpty
  | l@(_ :: t), sub => listStartsWith l sub || listHasSub t sub

/-- JavaScript `String.prototype.includes`: `jsIncludes s sub` is true iff
`sub` occurs as a contiguous substring of `s` (and always for empty `sub`). -/
def jsIncludes (s sub : String) : Bool :=
  listHasSub s.data sub.data

theorem listStartsWith_append (a b : List Char) :
    listStartsWith (a ++ b) a = true := by
  induction a with
  | nil => cases b <;> simp [listStartsWith]
  | cons c t ih => simp [listStartsWith, ih]

theorem listHasSub_append_left (a b : List Char) :
    listHasSub (a ++ b) a = true := by
  cases a with
  | nil => cases b <;> simp [listHasSub, listStartsWith, List.isEmpty]
  | cons c t =>
    have h := listStartsWith_append (c :: t) b
    simp only [List.cons_append] at h ⊢
    simp [listHasSub, h]

theorem jsIncludes_append_left (a b : String) :
    jsIncludes (a ++ b) a = true := by
  simp [jsIncludes, String.data_append, listHasSub_append_left]

/-- JavaScript `String.prototype.trim`, implemented on the character list
so that it evaluates in the kernel (Lean's `String.trim` recurses on byte
positions and does not reduce). -/
def jsTrim (s : String) : String :=
  ⟨((s.data.dropWhile Char.isWhitespace).reverse.dropWhile Char.isWhitespace).reverse⟩

/-- JavaScript `String.prototype.toUpperCase` (ASCII), on the character
list for kernel evaluation. -/
def jsToUpper (s : String) : String :=
  ⟨s.data.map Char.toUpper⟩

/-- A thrown JavaScript value, as the code observes it: an `Error`-like
object carrying a `message` (constructor `errObj`), a `TypeError` with a
`message` (constructor `typeError`), or a thrown primitive with no
`message` property (constructor `nonObj`, carrying `String(e)`). -/
inductive JsThrown where
  | errObj (message : String)
  | typeError (message : String)
  | nonObj (display : String)
deriving DecidableEq, Repr

/-- `String((e as any)?.message ?? e ?? "")` as used by the consumer. -/
def thrownMsg : JsThrown → String
  | .errObj m => m
  | .typeError m => m
  | .nonObj s => s

/-- A reply value from the Redis driver: bulk string, integer, nil, or
(multi-)array. -/
inductive RVal where
  | str (s : String)
  | int (n : Int)
  | nil
  | arr (xs : List RVal)

/-- JavaScript strict equality `v === s` between a reply element and a
string literal. -/
def rvalIsStr : RVal → String → Bool
  | .str s, t => s == t
  | _, _ => false

/-- JavaScript `String(v)` on a reply value (`String(null) = "null"`,
arrays join their elements with commas). -/
def rvalToString : RVal → String
  | .str s => s
  | .int n => toString n
  | .nil => "null"
  | .arr xs => String.intercalate "," (xs.attach.map fun x => rvalToString x.1)
termination_by v => sizeOf v
decreasing_by
  have := List.sizeOf_lt_of_mem x.2
  simp only [RVal.arr.sizeOf_spec]
  omega

/-- JavaScript `Number(s)` on a string, restricted to the decimal numerals
that occur on these code paths: optional sign, digits, optional fractional
part (dropped — every use site immediately truncates toward zero, so
pre-truncation is equivalent).  `none` models `NaN`.  The empty /
all-whitespace string converts to `0` as in JavaScript. -/
def jsStrToNumber (s : String) : Option Int :=
  match (jsTrim s).data with
  | [] => some 0
  | cs =>
    let (sgn, ds) : Int × List Char :=
      match cs with
      | '-' :: r => (-1, r)
      | '+' :: r => (1, r)
      | r => (1, r)
    let ipRest := ds.span Char.isDigit
    let ok : Bool :=
      match ipRest.2 with
      | [] => !ipRest.1.isEmpty
      | '.' :: fs => fs.all Char.isDigit && (!ipRest.1.isEmpty || !fs.isEmpty)
      | _ => false
    if ok then
      some (sgn * (ipRest.1.foldl (fun a c => a * 10 + (c.toNat - 48)) 0 : Nat))
    else none

/-- JavaScript `Number(v)` on a reply value: integers pass through, nil
(JS `null`) converts to `0`, strings parse as above, and arrays convert
via their string form (ToPrimitive). `none` models `NaN`. -/
def jsNumberOfRVal : RVal → Option Int
  | .int n => some n
  | .str s => jsStrToNumber s
  | .nil => some 0
  | .arr xs => jsStrToNumber (rvalToString (.arr xs))

/-- `Number(x)` where `x` may be an absent array element (`undefined`,
which converts to `NaN`). -/
def jsNumberOfElem : Option RVal → Option Int
  | none => none
  | some v => jsNumberOfRVal v

/-- JavaScript `x | 0` (ToInt32): `NaN` becomes 0, a finite integral value
wraps to the signed 32-bit range. -/
def jsToInt32 : Option Int → Int
  | none => 0
  | some n =>
    let m := n % (4294967296 : Int)
    if m < 2147483648 then m else m - 4294967296

/-! ## Key layout (src/helper.ts) -/

/-- `queueBase` (src/helper.ts): wrap the queue name in braces unless it
already contains both a `{` and a `}`. -/
def queueBase (queueName : String) : String :=
  if jsIncludes queueName "\x7b" && jsIncludes queueName "\x7d" then
    queueName
  else
    "\x7b" ++ queueName ++ "\x7d"

/-- `queueAnchor` (src/helper.ts): the sole declared key for every queue
script. -/
def queueAnchor (queueName : String) : String :=
  queueBase queueName ++ ":meta"

/-- The pause-flag key read by `OmniqOps.is_paused` (src/ops.ts):
```${base}:paused` ``. -/
def pausedKey (queueName : String) : String :=
  queueBase queueName ++ ":paused"

/-- The job-record key read by `OmniqOps.job_timeout_ms` (src/ops.ts):
```${base}:job:${job_id}` ``. -/
def jobKey (queueName jobId : String) : String :=
  queueBase queueName ++ (":job:" ++ jobId)

/-- `childsAnchor` (src/helper.ts): trim the key, validate it (non-empty,
no braces, at most `maxLen` characters), and return `{cc:<key>}:meta`. -/
def childsAnchor (key : String) (maxLen : Nat := 128) : Except JsThrown String :=
  let k := jsTrim key
  if k = "" then
    .error (.errObj "childs_anchor key is required")
  else if jsIncludes k "\x7b" || jsIncludes k "\x7d" then
    .error (.errObj "childs_anchor key must not contain braces")
  else if k.length > maxLen then
    .error (.errObj ("childs_anchor key too long (max " ++ toString maxLen ++ " chars)"))
  else
    .ok ("\x7bcc:" ++ k ++ "\x7d:meta")

/-! ## Ops layer (src/ops.ts) -/

/-- The outcome of one driver call: a reply value, or a thrown error. -/
abbrev CallResult := Except JsThrown RVal

/-- A call issued to the store driver. -/
inductive StoreCall where
  | evalshaCall (sha : String) (numkeys : Nat) (keysAndArgs : List String)
  | evalCall (src : String) (numkeys : Nat) (keysAndArgs : List String)
deriving DecidableEq, Repr

/-- `isNoScriptError` (src/ops.ts): a thrown value is a NOSCRIPT error iff
it is an object and `String(err?.message ?? "").toUpperCase()` contains
`"NOSCRIPT"`. -/
def isNoScriptError : JsThrown → Bool
  | .nonObj _ => false
  | .errObj m => jsIncludes (jsToUpper m) "NOSCRIPT"
  | .typeError m => jsIncludes (jsToUpper m) "NOSCRIPT"

/-- `OmniqOps.evalshaWithNoScriptFallback` (src/ops.ts).  The driver's
responses to the EVALSHA attempt and to the (at most one) recovery EVAL
are passed in as `evalshaRes` and `evalRes`; the second component of the
result records the driver calls actually issued, in order.  The
process-wide mutex only serializes concurrent recovery EVALs; within one
invocation it is acquired and released around the single EVAL recorded
here. -/
def invoke (sha src : String) (numkeys : Nat) (keysAndArgs : List String)
    (evalshaRes evalRes : CallResult) : CallResult × List StoreCall :=
  match evalshaRes with
  | .ok v => (.ok v, [.evalshaCall sha numkeys keysAndArgs])
  | .error e =>
    if isNoScriptError e then
      (evalRes, [.evalshaCall sha numkeys keysAndArgs, .evalCall src numkeys keysAndArgs])
    else
      (.error e, [.evalshaCall sha numkeys keysAndArgs])

/-- Response handling of `OmniqOps.heartbeat` (src/ops.ts): `["OK", v]`
returns `Number(v) | 0`; `["ERR", reason]` throws `HEARTBEAT failed:
<reason>`; anything else throws an unexpected-response error. -/
def heartbeatParse : RVal → Except JsThrown Int
  | .arr (h :: t) =>
    if rvalIsStr h "OK" then
      .ok (jsToInt32 (jsNumberOfElem t.head?))
    else if rvalIsStr h "ERR" then
      .error (.errObj ("HEARTBEAT failed: " ++
        (match t.head? with
         | some v => rvalToString v
         | none => "UNKNOWN")))
    else
      .error (.errObj "Unexpected HEARTBEAT response")
  | _ => .error (.errObj "Unexpected HEARTBEAT response")

/-- The optional arguments of `OmniqOps.publish` (src/ops.ts); `none`
models an omitted (`undefined`) field, and for `gid` also an explicit
`null` (both select the empty group string). -/
structure PublishOpts where
  job_id : Option String := none
  max_attempts : Option Int := none
  timeout_ms : Option Int := none
  backoff_ms : Option Int := none
  due_ms : Option Int := none
  now_ms_override : Option Int := none
  gid : Option String := none
  group_limit : Option Int := none

/-- `typeof payload === "object"` over our JSON value model
(`typeof null` is `"object"` in JavaScript). -/
inductive JsValue where
  | null
  | bool (b : Bool)
  | num (n : Int)
  | str (s : String)
  | arr (xs : List JsValue)
  | obj (fields : List (String × JsValue))

def jsIsNull : JsValue → Bool
  | .null => true
  | _ => false

def jsIsArray : JsValue → Bool
  | .arr _ => true
  | _ => false

def typeofIsObject : JsValue → Bool
  | .null => true
  | .arr _ => true
  | .obj _ => true
  | _ => false

/-- The `isObject` test of `OmniqOps.publish`:
`payload !== null && typeof payload === "object" && !Array.isArray(payload)`. -/
def publishIsObject (p : JsValue) : Bool :=
  !jsIsNull p && typeofIsObject p && !jsIsArray p

/-- The message of the `TypeError` thrown by `publish` on a non-object,
non-array payload. -/
def publishTypeMsg : String :=
  "publish(payload=...) must be an object or array (structured JSON)."

/-- The ARGV list marshalled by `OmniqOps.publish` (src/ops.ts):
`[jid, payload_s, max_attempts, timeout_ms, backoff_ms, now, due_ms,`
`gid, group_limit]`, each integer truncated and rendered in decimal.
`stringify` stands for the `JSON.stringify` builtin, `nowClock` for
`nowMs()` and `freshUlid` for `newUlid()`. -/
def publishArgv (stringify : JsValue → String) (payload : JsValue)
    (o : PublishOpts) (nowClock : Int) (freshUlid : String) : List String :=
  let max_attempts := o.max_attempts.getD 3
  let timeout_ms := o.timeout_ms.getD 30000
  let backoff_ms := o.backoff_ms.getD 5000
  let due_ms := o.due_ms.getD 0
  let nmo := o.now_ms_override.getD 0
  let nms := if nmo = 0 then nowClock else nmo
  let jid := match o.job_id with
    | some s => if s = "" then freshUlid else s
    | none => freshUlid
  let payload_s := stringify payload
  let gid_s := jsTrim (o.gid.getD "")
  let gl := o.group_limit.getD 0
  let glimit_s := if gl > 0 then toString gl else "0"
  [jid, payload_s, toString max_attempts, toString timeout_ms,
   toString backoff_ms, toString nms, toString due_ms, gid_s, glimit_s]

/-- The validation and marshalling stage of `OmniqOps.publish`
(src/ops.ts): reject a payload that is neither object nor array with a
`TypeError` before any key or argument is built; otherwise produce the
anchor key and the ARGV list. -/
def publishPrepare (stringify : JsValue → String) (queue : String)
    (payload : JsValue) (o : PublishOpts) (nowClock : Int)
    (freshUlid : String) : Except JsThrown (String × List String) :=
  if !publishIsObject payload && !jsIsArray payload then
    .error (.typeError publishTypeMsg)
  else
    .ok (queueAnchor queue, publishArgv stringify payload o nowClock freshUlid)

/-- Response handling of `OmniqOps.publish`: `["OK", id]` returns the id;
a non-`OK` discriminant or a malformed reply throws. -/
def publishParse : RVal → Except JsThrown String
  | .arr (a :: b :: _) =>
    if rvalToString a = "OK" then .ok (rvalToString b)
    else .error (.errObj ("ENQUEUE failed: " ++ rvalToString a))
  | _ => .error (.errObj "Unexpected ENQUEUE response")

/-- `OmniqOps.publish` end to end: validation, marshalling, the EVALSHA /
EVAL invocation (`sha`/`src` are the enqueue script's cached pair,
`er`/`ev` the driver's responses) and response parsing.  The second
component lists the driver calls issued, in order. -/
def publish (stringify : JsValue → String) (queue : String)
    (payload : JsValue) (o : PublishOpts) (nowClock : Int) (freshUlid : String)
    (sha src : String) (er ev : CallResult) :
    Except JsThrown String × List StoreCall :=
  match publishPrepare stringify queue payload o nowClock freshUlid with
  | .error e => (.error e, [])
  | .ok (anchor, argv) =>
    let (r, calls) := invoke sha src 1 (anchor :: argv) er ev
    match r with
    | .error e => (.error e, calls)
    | .ok v => (publishParse v, calls)

/-- Reply handling inside the `try` of `OmniqOps.child_ack` (src/ops.ts):
a non-array or empty reply yields −1; a reply headed by the string `"OK"`
yields `Math.trunc(Number(res[1]))` when that is finite and −1 otherwise;
any other head yields −1. -/
def childAckParse : RVal → Int
  | .arr (h :: t) =>
    if rvalIsStr h "OK" then
      match t.head? with
      | none => -1
      | some x =>
        match jsNumberOfRVal x with
        | some n => n
        | none => -1
    else -1
  | _ => -1

/-- `OmniqOps.child_ack` (src/ops.ts).  The anchor derivation and the
`child_id` check run *before* the `try`, so their errors propagate; inside
the `try`, every store error is swallowed into −1.  The boolean records
whether the store was contacted. -/
def childAckOps (key child_id : String) (storeRes : CallResult) :
    Except JsThrown Int × Bool :=
  match childsAnchor key with
  | .error e => (.error e, false)
  | .ok _anchor =>
    let cid := jsTrim child_id
    if cid = "" then
      (.error (.errObj "child_ack child_id is required"), false)
    else
      match storeRes with
      | .error _ => (.ok (-1), true)
      | .ok v => (.ok (childAckParse v), true)

/-- `OmniqOps.childs_init` (src/ops.ts): anchor derivation first (errors
propagate, store untouched), then the script call; `["OK", …]` succeeds,
`["ERR", reason]` and malformed replies throw.  The boolean records
whether the store was contacted. -/
def childsInitOps (key : String) (_expected : Int) (storeRes : CallResult) :
    Except JsThrown Unit × Bool :=
  match childsAnchor key with
  | .error e => (.error e, false)
  | .ok _anchor =>
    match storeRes with
    | .error e => (.error e, true)
    | .ok v =>
      match v with
      | .arr (h :: t) =>
        if rvalIsStr h "OK" then (.ok (), true)
        else if rvalIsStr h "ERR" then
          (.error (.errObj ("CHILDS_INIT failed: " ++
            (match t.head? with
             | some r => rvalToString r
             | none => "UNKNOWN"))), true)
        else (.error (.errObj "Unexpected CHILDS_INIT response"), true)
      | _ => (.error (.errObj "Unexpected CHILDS_INIT response"), true)

/-! ## Exec facade (src/exec.ts) -/

/-- The optional arguments accepted by `Exec.publish` (src/exec.ts); it
exposes no `now_ms_override`. -/
structure ExecPublishOpts where
  job_id : Option String := none
  max_attempts : Option Int := none
  timeout_ms : Option Int := none
  backoff_ms : Option Int := none
  due_ms : Option Int := none
  gid : Option String := none
  group_limit : Option Int := none

/-- `Exec.publish` (src/exec.ts): fill every optional field with the
facade's own default (`?? 3`, `?? 60_000`, `?? 5_000`, `?? 0`, `?? null`,
`?? 0`) before forwarding to `OmniqOps.publish`. -/
def execPublishForward (o : ExecPublishOpts) : PublishOpts :=
  { job_id := o.job_id
    max_attempts := some (o.max_attempts.getD 3)
    timeout_ms := some (o.timeout_ms.getD 60000)
    backoff_ms := some (o.backoff_ms.getD 5000)
    due_ms := some (o.due_ms.getD 0)
    now_ms_override := none
    gid := o.gid
    group_limit := some (o.group_limit.getD 0) }

/-- The effective child id of `Exec.child_ack` (src/exec.ts):
`child_id ?? default_child_id` — the default applies only when `child_id`
is `null`/`undefined`, not when it is an empty string. -/
def execEffective (default_child_id : String) : Option String → String
  | none => default_child_id
  | some s => s

/-- The validation error message of `Exec.child_ack`. -/
def execChildIdMsg : String :=
  "child_id is required (or provide default_child_id)"

/-- `Exec.child_ack` (src/exec.ts) composed with `OmniqOps.child_ack`:
trim the effective id, throw a validation error when it is blank,
otherwise forward the trimmed id (the final `Math.trunc` is the identity
on the integer result). -/
def execChildAckFull (default_child_id : String) (child_id : Option String)
    (key : String) (storeRes : CallResult) : Except JsThrown Int :=
  let cid := jsTrim (execEffective default_child_id child_id)
  if cid = "" then .error (.errObj execChildIdMsg)
  else (childAckOps key cid storeRes).1

/-! ## Consumer runloop (src/consumer.ts) -/

/-- The outcome the heartbeater observes for one `ops.heartbeat` call. -/
inductive HbResult where
  | ok (newLockUntil : Int)
  | err (msg : String)

/-- `checkLost` of `startHeartbeater` (src/consumer.ts): an error message
is terminal iff it contains `NOT_ACTIVE` or `TOKEN_MISMATCH`. -/
def checkLostMsg (msg : String) : Bool :=
  jsIncludes msg "NOT_ACTIVE" || jsIncludes msg "TOKEN_MISMATCH"

/-- The final value of the heartbeater's `lost` flag over the heartbeat
outcomes it processes: successes and non-terminal errors are ignored; the
first terminal error sets `lost` and stops the timer (later outcomes never
occur). -/
def heartbeaterLost : List HbResult → Bool
  | [] => false
  | .ok _ :: rest => heartbeaterLost rest
  | .err m :: rest => if checkLostMsg m then true else heartbeaterLost rest

/-- How the handler finished for the reserved job. -/
inductive HandlerOutcome where
  | success
  | failure (name msg : String)

/-- The parsed result of a successful `ack_fail` call. -/
inductive AckFailRes where
  | retry (dueMs : Int)
  | failed

/-- An observable action of one runloop iteration after the handler
settles (src/consumer.ts, the `try`/`catch`/`finally` around
`handler(ctx)`). -/
inductive IterEffect where
  | stopHb
  | ackSuccessCall
  | ackFailCall (error : String)
  | logMsg (m : String)
  | waitDone
deriving DecidableEq, Repr

/-- The tail of one `consume` iteration (src/consumer.ts): after
`await handler(ctx)` settles, stop the heartbeater, then — only when the
`lost` flag is unset — ack, catching and (if `verbose`) logging any ack
error; finally wait briefly for the heartbeater.  `lost` is the flag's
value at the check (JavaScript runs `hb.stop()` and the check on `lost`
synchronously after the handler settles, so no heartbeat completion can
interleave).  Returns the effects in order, and the exception escaping
the iteration, of which there is never one. -/
def consumeIteration (verbose lost : Bool) (jobId : String)
    (h : HandlerOutcome) (ackS : Except JsThrown Unit)
    (ackF : Except JsThrown AckFailRes) :
    List IterEffect × Option JsThrown :=
  match h with
  | .success =>
    let effs :=
      if lost then [IterEffect.stopHb]
      else
        IterEffect.stopHb :: IterEffect.ackSuccessCall ::
        (match ackS with
         | .ok _ =>
           if verbose then
             [IterEffect.logMsg ("[consume] ack success job_id=" ++ jobId)]
           else []
         | .error e =>
           if verbose then
             [IterEffect.logMsg ("[consume] ack success error job_id=" ++
               jobId ++ ": " ++ thrownMsg e)]
           else [])
    (effs ++ [IterEffect.waitDone], none)
  | .failure name msg =>
    let errMsg := name ++ ": " ++ msg
    let effs :=
      if lost then [IterEffect.stopHb]
      else
        IterEffect.stopHb :: IterEffect.ackFailCall errMsg ::
        (match ackF with
         | .ok r =>
           if verbose then
             [IterEffect.logMsg
                (match r with
                 | .retry d =>
                   "[consume] ack fail job_id=" ++ jobId ++
                     " => RETRY due_ms=" ++ toString d
                 | .failed => "[consume] ack fail job_id=" ++ jobId ++ " => FAILED"),
              IterEffect.logMsg ("[consume] error job_id=" ++ jobId ++ " => " ++ errMsg)]
           else []
         | .error e2 =>
           if verbose then
             [IterEffect.logMsg ("[consume] ack fail error job_id=" ++
               jobId ++ ": " ++ thrownMsg e2)]
           else [])
    (effs ++ [IterEffect.waitDone], none)

/-- Payloads the publish contract rejects: `null`, booleans, numbers and
strings. -/
def jsPrimPayload : JsValue → Bool
  | .null | .bool _ | .num _ | .str _ => true
  | .arr _ | .obj _ => false

/-- Replies of the shape `["OK", x, …]` — the only shape from which
`child_ack` extracts a remaining-count. -/
def okCountShape : RVal → Bool
  | .arr (h :: _ :: _) => rvalIsStr h "OK"
  | _ => false

/-! ## Claims -/

/-- Claim C1 (code bug): the spec says a heartbeat reply `["OK", v]`
returns exactly the new absolute lease expiry `v`, but the code computes
`Number(res[1]) | 0`, which wraps to the signed 32-bit range.  At the
realistic expiry 1760000000000 ms (October 2025) the code returns
−936591360 instead of 1760000000000. -/
theorem heartbeat_wraps_lock_until_to_int32 :
    heartbeatParse (.arr [.str "OK", .str "1760000000000"]) = .ok (-936591360) ∧
    ((-936591360 : Int) ≠ 1760000000000) :=
  ⟨rfl, by decide⟩

/-- Claim C2: whenever the heartbeater's `lost` flag is set by the time
the handler settles (it becomes set exactly when some heartbeat error
message contains `NOT_ACTIVE` or `TOKEN_MISMATCH`), the runloop iteration
issues neither an `ack_success` nor an `ack_fail` call for that job. -/
theorem consume_skips_acks_after_lease_loss
    (trace : List HbResult) (verbose : Bool) (jobId : String)
    (h : HandlerOutcome) (ackS : Except JsThrown Unit)
    (ackF : Except JsThrown AckFailRes)
    (hl : heartbeaterLost trace = true) :
    IterEffect.ackSuccessCall ∉
      (consumeIteration verbose (heartbeaterLost trace) jobId h ackS ackF).1 ∧
    ∀ s, IterEffect.ackFailCall s ∉
      (consumeIteration verbose (heartbeaterLost trace) jobId h ackS ackF).1 := by
  rw [hl]
  cases h <;> simp [consumeIteration]

/-- Witness for C2 at a concrete lease-loss trace. -/
theorem consume_skips_acks_after_lease_loss_witness :
    heartbeaterLost [HbResult.err "HEARTBEAT failed: NOT_ACTIVE"] = true ∧
    IterEffect.ackSuccessCall ∉
      (consumeIteration true (heartbeaterLost [HbResult.err "HEARTBEAT failed: NOT_ACTIVE"])
        "job1" .success (.ok ()) (.ok .failed)).1 :=
  ⟨by decide,
   (consume_skips_acks_after_lease_loss [HbResult.err "HEARTBEAT failed: NOT_ACTIVE"]
      true "job1" .success (.ok ()) (.ok .failed) (by decide)).1⟩

/-- Claim C3: `invoke` always attempts EVALSHA first; on success no EVAL
is issued; on an error whose message contains `NOSCRIPT`
(case-insensitively) it issues exactly one EVAL with the stored source and
returns that call's result; any other error is propagated unchanged with
no EVAL attempted. -/
theorem invoke_noscript_fallback (sha src : String) (nk : Nat)
    (args : List String) (ev : CallResult) :
    (∀ v, invoke sha src nk args (.ok v) ev =
      (.ok v, [.evalshaCall sha nk args])) ∧
    (∀ e, isNoScriptError e = true →
      invoke sha src nk args (.error e) ev =
        (ev, [.evalshaCall sha nk args, .evalCall src nk args])) ∧
    (∀ e, isNoScriptError e = false →
      invoke sha src nk args (.error e) ev =
        (.error e, [.evalshaCall sha nk args])) := by
  refine ⟨fun v => rfl, fun e he => ?_, fun e he => ?_⟩ <;> simp [invoke, he]

/-- Witness for C3 at the driver's actual NOSCRIPT message. -/
theorem invoke_noscript_fallback_witness :
    isNoScriptError (.errObj "NOSCRIPT No matching script. Please use EVAL.") = true ∧
    invoke "sha1" "src1" 1 ["k"]
        (.error (.errObj "NOSCRIPT No matching script. Please use EVAL."))
        (.ok (.str "v")) =
      (.ok (.str "v"), [.evalshaCall "sha1" 1 ["k"], .evalCall "src1" 1 ["k"]]) :=
  ⟨by decide,
   (invoke_noscript_fallback "sha1" "src1" 1 ["k"] (.ok (.str "v"))).2.1 _ (by decide)⟩

/-- Claim C4: `publish` rejects `null`, string, number and boolean
payloads with a `TypeError` before issuing any driver call, and accepts
every object or array payload. -/
theorem publish_payload_validation (stringify : JsValue → String)
    (queue : String) (o : PublishOpts) (now : Int) (ulid sha src : String)
    (er ev : CallResult) :
    (∀ p, jsPrimPayload p = true →
      publish stringify queue p o now ulid sha src er ev =
        (.error (.typeError publishTypeMsg), [])) ∧
    (∀ p, jsPrimPayload p = false →
      (publishPrepare stringify queue p o now ulid).isOk = true) := by
  constructor
  · intro p hp
    cases p <;> simp [jsPrimPayload] at hp <;>
      simp [publish, publishPrepare, publishIsObject, jsIsNull, typeofIsObject, jsIsArray]
  · intro p hp
    cases p <;> simp [jsPrimPayload] at hp <;>
      simp [publishPrepare, publishIsObject, jsIsNull, typeofIsObject, jsIsArray, Except.isOk, Except.toBool]

/-- Witness for C4: a `null` payload and an object payload. -/
theorem publish_payload_validation_witness :
    publish (fun _ => "null") "demo" .null {} 0 "u" "sh" "sr"
        (.ok (.arr [.str "OK", .str "id"])) (.ok (.arr [.str "OK", .str "id"])) =
      (.error (.typeError publishTypeMsg), []) ∧
    (publishPrepare (fun _ => "\x7b\x7d") "demo" (.obj []) {} 0 "u").isOk = true :=
  ⟨(publish_payload_validation (fun _ => "null") "demo" {} 0 "u" "sh" "sr"
      (.ok (.arr [.str "OK", .str "id"])) (.ok (.arr [.str "OK", .str "id"]))).1 .null (by decide),
   (publish_payload_validation (fun _ => "\x7b\x7d") "demo" {} 0 "u" "sh" "sr"
      (.ok .nil) (.ok .nil)).2 (.obj []) (by decide)⟩

/-- Counterexample to C5: through the Exec facade an omitted `timeout_ms`
is marshalled as `"60000"`, not the claimed `"30000"` (ARGV position 3). -/
theorem exec_publish_default_timeout_cex :
    (publishArgv (fun _ => "PS") (.obj []) (execPublishForward {}) 1000 "jid01").getD 3 "" =
      "60000" ∧
    (publishArgv (fun _ => "PS") (.obj []) {} 1000 "jid01").getD 3 "" = "30000" ∧
    ("60000" : String) ≠ "30000" :=
  ⟨by decide, by decide, by decide⟩

/-- Claim C5 as amended: with every optional field omitted, the Ops layer
marshals `max_attempts=3`, `timeout_ms=30000`, `backoff_ms=5000`,
`due_ms=0`, `gid=""`, `group_limit=0`; through the Exec facade the same
holds except that the omitted `timeout_ms` is forwarded as `60000`. -/
theorem publish_defaults_amended (stringify : JsValue → String) (p : JsValue)
    (now : Int) (ulid : String) :
    (publishArgv stringify p {} now ulid).drop 2 =
      ["3", "30000", "5000", toString now, "0", "", "0"] ∧
    (publishArgv stringify p (execPublishForward {}) now ulid).drop 2 =
      ["3", "60000", "5000", toString now, "0", "", "0"] := by
  constructor <;> rfl

/-- Counterexample to C6: `" doc"` satisfies the claim's validity
constraints (non-empty, ≤128 chars, no braces), yet the child anchor the
code derives is `{cc:doc}:meta`, which does not contain `{cc: doc}`. -/
theorem childs_anchor_hash_tag_cex :
    childsAnchor " doc" = .ok "\x7bcc:doc\x7d:meta" ∧
    jsIncludes "\x7bcc:doc\x7d:meta" "\x7bcc: doc\x7d" = false ∧
    (" doc" ≠ "") ∧ (" doc" : String).length ≤ 128 ∧
    jsIncludes " doc" "\x7b" = false ∧ jsIncludes " doc" "\x7d" = false :=
  ⟨rfl, by decide, by decide, by decide, by decide, by decide⟩

/-- Claim C6 as amended: for a queue name without braces every
client-built key (queue anchor, pause flag, job record) contains `{q}`;
for a queue name already containing both braces the keys embed the name
verbatim; and every successfully derived child anchor contains
`{cc:trim(k)}` (which is `{cc:k}` exactly when `k` carries no surrounding
whitespace). -/
theorem client_keys_hash_tag_amended (q jid k : String) :
    (jsIncludes q "\x7b" = false → jsIncludes q "\x7d" = false →
      jsIncludes (queueAnchor q) ("\x7b" ++ q ++ "\x7d") = true ∧
      jsIncludes (pausedKey q) ("\x7b" ++ q ++ "\x7d") = true ∧
      jsIncludes (jobKey q jid) ("\x7b" ++ q ++ "\x7d") = true) ∧
    (jsIncludes q "\x7b" = true → jsIncludes q "\x7d" = true →
      jsIncludes (queueAnchor q) q = true ∧
      jsIncludes (pausedKey q) q = true ∧
      jsIncludes (jobKey q jid) q = true) ∧
    (∀ a, childsAnchor k = .ok a →
      jsIncludes a ("\x7bcc:" ++ jsTrim k ++ "\x7d") = true) := by
  refine ⟨fun h1 _h2 => ?_, fun h1 h2 => ?_, fun a ha => ?_⟩
  · have hb : queueBase q = "\x7b" ++ q ++ "\x7d" := by simp [queueBase, h1]
    refine ⟨?_, ?_, ?_⟩ <;>
      simp only [queueAnchor, pausedKey, jobKey, hb] <;>
      exact jsIncludes_append_left _ _
  · have hb : queueBase q = q := by simp [queueBase, h1, h2]
    refine ⟨?_, ?_, ?_⟩ <;>
      simp only [queueAnchor, pausedKey, jobKey, hb] <;>
      exact jsIncludes_append_left _ _
  · simp only [childsAnchor] at ha
    split_ifs at ha with h1 h2 h3
    have haa : a = "\x7bcc:" ++ jsTrim k ++ "\x7d:meta" := by
      injection ha with hh
      exact hh.symm
    subst haa
    have hsplit : ("\x7bcc:" ++ jsTrim k ++ "\x7d:meta") =
        ("\x7bcc:" ++ jsTrim k ++ "\x7d") ++ ":meta" := by
      apply String.ext
      simp [String.data_append, List.append_assoc]
    rw [hsplit]
    exact jsIncludes_append_left _ _

/-- Witness for C6 as amended, at `q := "demo"`, a braced queue name, and
`k := "doc"`. -/
theorem client_keys_hash_tag_amended_witness :
    (jsIncludes (queueAnchor "demo") ("\x7b" ++ "demo" ++ "\x7d") = true ∧
     jsIncludes (pausedKey "demo") ("\x7b" ++ "demo" ++ "\x7d") = true ∧
     jsIncludes (jobKey "demo" "j1") ("\x7b" ++ "demo" ++ "\x7d") = true) ∧
    (jsIncludes (queueAnchor "\x7bd\x7d") "\x7bd\x7d" = true) ∧
    jsIncludes "\x7bcc:doc\x7d:meta" ("\x7bcc:" ++ jsTrim "doc" ++ "\x7d") = true :=
  ⟨(client_keys_hash_tag_amended "demo" "j1" "doc").1 (by decide) (by decide),
   ((client_keys_hash_tag_amended "\x7bd\x7d" "j1" "doc").2.1 (by decide) (by decide)).1,
   (client_keys_hash_tag_amended "demo" "j1" "doc").2.2 "\x7bcc:doc\x7d:meta" rfl⟩

/-- Counterexample to C7: `" a"` is non-empty, short and brace-free, yet
`childs_anchor` returns `{cc:a}:meta`, not `"{cc:" + key + "}:meta"` —
the key is trimmed first. -/
theorem childs_anchor_trims_cex :
    childsAnchor " a" = .ok "\x7bcc:a\x7d:meta" ∧
    ("\x7bcc:a\x7d:meta" : String) ≠ "\x7bcc:" ++ " a" ++ "\x7d:meta" ∧
    (" a" ≠ "") ∧ (" a" : String).length ≤ 128 ∧
    jsIncludes " a" "\x7b" = false ∧ jsIncludes " a" "\x7d" = false :=
  ⟨rfl, by decide, by decide, by decide, by decide, by decide⟩

/-- Claim C7 as amended: `childs_anchor` first trims the key; when the
trimmed key is non-empty, brace-free and at most 128 characters it returns
`"{cc:" + trim(key) + "}:meta"`; a trim-empty key, a key with a brace, or
an over-long trimmed key each fail with a distinct validation error, and a
failed key never contacts the store through the child operations. -/
theorem childs_anchor_amended (key : String) :
    (jsTrim key ≠ "" → jsIncludes (jsTrim key) "\x7b" = false →
     jsIncludes (jsTrim key) "\x7d" = false → (jsTrim key).length ≤ 128 →
      childsAnchor key = .ok ("\x7bcc:" ++ jsTrim key ++ "\x7d:meta")) ∧
    (jsTrim key = "" →
      childsAnchor key = .error (.errObj "childs_anchor key is required")) ∧
    (jsIncludes (jsTrim key) "\x7b" = true ∨ jsIncludes (jsTrim key) "\x7d" = true →
      (childsAnchor key).isOk = false) ∧
    ((jsTrim key).length > 128 → (childsAnchor key).isOk = false) ∧
    ((childsAnchor key).isOk = false →
      ∀ cid sr e sr2, (childAckOps key cid sr).2 = false ∧
        (childsInitOps key e sr2).2 = false) := by
  refine ⟨?_, ?_, ?_, ?_, ?_⟩
  · intro h1 h2 h3 h4
    simp [childsAnchor, h1, h2, h3, Nat.not_lt.mpr h4]
  · intro h1
    simp [childsAnchor, h1]
  · intro h
    by_cases h1 : jsTrim key = ""
    · simp [childsAnchor, h1, Except.isOk, Except.toBool]
    · rcases h with h | h <;> simp [childsAnchor, h1, h, Except.isOk, Except.toBool]
  · intro h4
    by_cases h1 : jsTrim key = ""
    · simp [childsAnchor, h1, Except.isOk, Except.toBool]
    · by_cases h2 : (jsIncludes (jsTrim key) "\x7b" || jsIncludes (jsTrim key) "\x7d") = true
      · simp [childsAnchor, h1, h2, Except.isOk, Except.toBool]
      · simp only [Bool.or_eq_true, not_or, Bool.not_eq_true] at h2
        simp [childsAnchor, h1, h2.1, h2.2, h4, Except.isOk, Except.toBool]
  · intro hnotok cid sr e sr2
    cases hca : childsAnchor key with
    | error e' => simp [childAckOps, childsInitOps, hca]
    | ok a => rw [hca] at hnotok; simp [Except.isOk, Except.toBool] at hnotok

/-- Witness for C7 as amended, at `key := "doc_123"` and a trim-empty
key. -/
theorem childs_anchor_amended_witness :
    childsAnchor "doc_123" = .ok ("\x7bcc:" ++ jsTrim "doc_123" ++ "\x7d:meta") ∧
    childsAnchor " " = .error (.errObj "childs_anchor key is required") :=
  ⟨(childs_anchor_amended "doc_123").1 (by decide) (by decide) (by decide) (by decide),
   (childs_anchor_amended " ").2.1 (by decide)⟩

/-- Counterexample to C8: the Ops-layer `child_ack` *does* throw — the
`child_id` check runs before the `try`, so a blank id raises a validation
error instead of returning −1 (and the store is not contacted). -/
theorem child_ack_validation_throws_cex :
    (childAckOps "k" " " (.ok (.arr [.str "OK", .int 3]))).1 =
      .error (.errObj "child_ack child_id is required") ∧
    (childAckOps "k" " " (.ok (.arr [.str "OK", .int 3]))).2 = false :=
  ⟨rfl, rfl⟩

/-- Claim C8 as amended: for a key accepted by `childs_anchor` and a
`child_id` non-blank after trimming, `child_ack` never throws: every store
error yields −1, a reply `["OK", x, …]` with `x` a finite number yields
that number truncated, an `["OK", x, …]` with unparseable `x` yields −1,
and every other reply shape yields −1; an invalid key or blank `child_id`
instead raises a validation error before the store is contacted. -/
theorem child_ack_swallow_amended (key cid : String)
    (hk : (childsAnchor key).isOk = true) (hc : jsTrim cid ≠ "") :
    (∀ sr : CallResult, (childAckOps key cid sr).1.isOk = true) ∧
    (∀ e, (childAckOps key cid (.error e)).1 = .ok (-1)) ∧
    (∀ x rest n, jsNumberOfRVal x = some n →
      (childAckOps key cid (.ok (.arr (.str "OK" :: x :: rest)))).1 = .ok n) ∧
    (∀ x rest, jsNumberOfRVal x = none →
      (childAckOps key cid (.ok (.arr (.str "OK" :: x :: rest)))).1 = .ok (-1)) ∧
    (∀ v, okCountShape v = false →
      (childAckOps key cid (.ok v)).1 = .ok (-1)) := by
  cases hca : childsAnchor key with
  | error e' => rw [hca] at hk; simp [Except.isOk, Except.toBool] at hk
  | ok a =>
    refine ⟨?_, ?_, ?_, ?_, ?_⟩
    · intro sr
      cases sr <;> simp [childAckOps, hca, hc, Except.isOk, Except.toBool]
    · intro e
      simp [childAckOps, hca, hc]
    · intro x rest n hx
      simp [childAckOps, hca, hc, childAckParse, rvalIsStr, hx]
    · intro x rest hx
      simp [childAckOps, hca, hc, childAckParse, rvalIsStr, hx]
    · intro v hv
      cases v with
      | arr l =>
        cases l with
        | nil => simp [childAckOps, hca, hc, childAckParse]
        | cons hd t =>
          cases t with
          | nil => simp [childAckOps, hca, hc, childAckParse]
          | cons x r =>
            simp only [okCountShape] at hv
            simp [childAckOps, hca, hc, childAckParse, hv]
      | str s => simp [childAckOps, hca, hc, childAckParse]
      | int n => simp [childAckOps, hca, hc, childAckParse]
      | nil => simp [childAckOps, hca, hc, childAckParse]

/-- Witness for C8 as amended: a store error and a well-formed reply. -/
theorem child_ack_swallow_amended_witness :
    (childAckOps "doc" "c1" (.error (.nonObj "connection reset"))).1 = .ok (-1) ∧
    (childAckOps "doc" "c1" (.ok (.arr [.str "OK", .int 4]))).1 = .ok 4 :=
  ⟨(child_ack_swallow_amended "doc" "c1" (by decide) (by decide)).2.1
      (.nonObj "connection reset"),
   (child_ack_swallow_amended "doc" "c1" (by decide) (by decide)).2.2.1
      (.int 4) [] 4 rfl⟩

/-- Counterexample to C9: an explicitly supplied empty-string `child_id`
does not fall back to a non-empty `default_child_id` — the call fails even
though one of the two is non-empty. -/
theorem exec_child_ack_empty_string_cex :
    execChildAckFull "doc_123" (some "") "k" (.ok (.arr [.str "OK", .int 0])) =
      .error (.errObj execChildIdMsg) ∧
    ("doc_123" ≠ "") :=
  ⟨rfl, by decide⟩

/-- Claim C9 as amended: `Exec.child_ack` falls back to
`default_child_id` only when `child_id` is null or undefined; it fails
with a validation error iff the effective id (the supplied `child_id` if
supplied, else `default_child_id`) is blank after trimming, and otherwise
forwards the trimmed effective id to the Ops-layer `child_ack`. -/
theorem exec_child_ack_amended (dflt : String) (cidOpt : Option String)
    (key : String) (sr : CallResult) :
    (jsTrim (execEffective dflt cidOpt) = "" →
      execChildAckFull dflt cidOpt key sr = .error (.errObj execChildIdMsg)) ∧
    (jsTrim (execEffective dflt cidOpt) ≠ "" →
      execChildAckFull dflt cidOpt key sr =
        (childAckOps key (jsTrim (execEffective dflt cidOpt)) sr).1) := by
  constructor <;> intro h <;> simp [execChildAckFull, h]

/-- Witness for C9 as amended: omitted `child_id` with a non-blank
default id is forwarded. -/
theorem exec_child_ack_amended_witness :
    execChildAckFull "doc_123" none "k" (.ok (.arr [.str "OK", .int 2])) =
      (childAckOps "k" (jsTrim (execEffective "doc_123" none)) (.ok (.arr [.str "OK", .int 2]))).1 :=
  (exec_child_ack_amended "doc_123" none "k" (.ok (.arr [.str "OK", .int 2]))).2 (by decide)

/-- Claim C10: no exception ever escapes the post-handler part of a
runloop iteration — every ack error is swallowed there — and ack errors
are reported only through the verbose logger (no log effect at all when
`verbose` is off). -/
theorem consume_ack_errors_contained (verbose lost : Bool) (jobId : String)
    (h : HandlerOutcome) (ackS : Except JsThrown Unit)
    (ackF : Except JsThrown AckFailRes) :
    (consumeIteration verbose lost jobId h ackS ackF).2 = none ∧
    (verbose = false →
      ∀ m, IterEffect.logMsg m ∉ (consumeIteration verbose lost jobId h ackS ackF).1) := by
  constructor
  · cases h <;> simp [consumeIteration]
  · intro hv m
    subst hv
    cases h <;> cases lost <;> cases ackS <;> cases ackF <;>
      simp [consumeIteration]

/-- Witness for C10: a failing `ack_success` with `verbose` off neither
escapes nor logs. -/
theorem consume_ack_errors_contained_witness :
    (consumeIteration false false "j" .success (.error (.nonObj "boom")) (.ok .failed)).2 =
      none ∧
    IterEffect.logMsg "x" ∉
      (consumeIteration false false "j" .success (.error (.nonObj "boom")) (.ok .failed)).1 :=
  ⟨(consume_ack_errors_contained false false "j" .success (.error (.nonObj "boom"))
      (.ok .failed)).1,
   (consume_ack_errors_contained false false "j" .success (.error (.nonObj "boom"))
      (.ok .failed)).2 rfl "x"⟩

end Omniq
